import Mathlib

/-!
# CannySprinkler: the irrigation decision of `openweather_sprinkler.go`

A shallow embedding of the weather-signal extractors (`RainsToday`,
`RainsTomorrow`, `RainedYesterday`, `DaysToNextRain`) and of the two decisions
built on them (`SprinkleNow`, `GetSprinkleTime`), followed by the properties
proved about them.

Modelling conventions.

* A decoded JSON document is a `Value`; a Go `map[string]interface{}` is an
  association list `Object`, read with `List.lookup` (the first binding of a key
  is the one the map holds).  A nil map reads like the empty one.
* A `float64` is a rational number: finite values, exact arithmetic.  Rounding,
  infinities and NaN are outside the model.  A quotient by zero follows the
  convention `x / 0 = 0` of `ℚ`, where Go yields an infinity or NaN: the value of
  `GetSprinkleTime` at a pump output of `0` is not modelled, and the theorems on
  the value of the quotient assume a pump output other than `0`.
* The two HTTP fetches of the constructor are its last two arguments: the
  snapshots they leave in the instance.
-/

namespace CannySprinkler

/-- A value as `encoding/json` decodes it into an `interface{}`. -/
inductive Value where
  | null : Value
  | bool : Bool → Value
  | number : ℚ → Value
  | string : String → Value
  | array : List Value → Value
  | object : List (String × Value) → Value

/-- The Go type `map[string]interface{}`. -/
abbrev Object := List (String × Value)

/-- The type assertion `v.(map[string]interface{})` on the result of a map index
(`none` is the nil interface of a missing key). -/
def asObject : Option Value → Option Object
  | some (Value.object m) => some m
  | _ => none

/-- The type assertion `v.([]interface{})`. -/
def asArray : Option Value → Option (List Value)
  | some (Value.array xs) => some xs
  | _ => none

/-- The type assertion `v.(float64)`. -/
def asFloat64 : Option Value → Option ℚ
  | some (Value.number x) => some x
  | _ => none

/-- Index of a `map[string]float64`: the zero value for a missing key. -/
def paramsGet (params : List (String × ℚ)) (key : String) : ℚ :=
  (params.lookup key).getD 0

/-- The struct `OpenWeatherSprinkler`; the three pointer fields are options. -/
structure OpenWeatherSprinkler where
  apiKey : String
  lat : ℚ
  lon : ℚ
  barrelVolume : Option ℚ
  pumpOutput : Option ℚ
  soilMoisture : Option ℚ
  params : List (String × ℚ)
  nowForecast : Object
  histoForecast : Object

/-- The constructor `NewOpenWeatherSprinkler`.  `nowData` and `histoData` are what
`setNowForecast` and `setHistoForecast` store in the instance. -/
def NewOpenWeatherSprinkler (apiKey : String) (lat lon : ℚ)
    (barrelVolume pumpOutput soilMoisture : Option ℚ)
    (nowData histoData : Object) : OpenWeatherSprinkler :=
  { apiKey := apiKey
    lat := lat
    lon := lon
    barrelVolume := barrelVolume
    pumpOutput := pumpOutput
    soilMoisture := soilMoisture
    params := [("soil_moisture_lower", 30), ("soil_moisture_upper", 80), ("barrel_buffer", 0.5)]
    nowForecast := nowData
    histoForecast := histoData }

/-- The snapshots `setNowForecast` installs when the fetch or the parse fails. -/
def defaultNowForecast : Object :=
  [("current", Value.object []), ("daily", Value.array [])]

/-- The snapshot `setHistoForecast` installs when the fetch or the parse fails. -/
def defaultHistoForecast : Object :=
  [("hourly", Value.array [])]

/-- The method `GetNowForecast` on an instance whose snapshot is set. -/
def GetNowForecast (s : OpenWeatherSprinkler) : Object := s.nowForecast

/-- The method `GetHistoForecast` on an instance whose snapshot is set. -/
def GetHistoForecast (s : OpenWeatherSprinkler) : Object := s.histoForecast

/-- The test every extractor repeats on a weather entry `e`:
`if rain, ok := e["rain"].(map[string]interface{}); ok { if _, ok := rain["1h"]; ok {..} }`. -/
def rainHas1h (e : Object) : Bool :=
  match asObject (e.lookup "rain") with
  | some rain => (rain.lookup "1h").isSome
  | none => false

/-- The second test on a weather entry: `if _, ok := e["rain"].(float64); ok {..}`. -/
def rainIsFloat (e : Object) : Bool :=
  (asFloat64 (e.lookup "rain")).isSome

/-- The method `RainsToday`; `weatherData = none` is the nil argument. -/
def RainsToday (s : OpenWeatherSprinkler) (weatherData : Option Object) : Bool :=
  let weatherData := match weatherData with
    | none => GetNowForecast s
    | some w => w
  match asObject (weatherData.lookup "current") with
  | none => false
  | some current =>
    if rainHas1h current then true
    else if rainIsFloat current then true
    else false

/-- The method `RainsTomorrow`. -/
def RainsTomorrow (s : OpenWeatherSprinkler) (weatherData : Option Object) : Bool :=
  let weatherData := match weatherData with
    | none => GetNowForecast s
    | some w => w
  match asArray (weatherData.lookup "daily") with
  | none => false
  | some [] => false
  | some (d0 :: _) =>
    match asObject (some d0) with
    | none => false
    | some tomorrow =>
      if rainHas1h tomorrow then true
      else if rainIsFloat tomorrow then true
      else false

/-- One iteration of the loop of `RainedYesterday` on the counter `hoursWithRain`. -/
def rainedYesterdayStep (hoursWithRain : Nat) (h : Value) : Nat :=
  match asObject (some h) with
  | none => hoursWithRain
  | some hour =>
    let c := if rainHas1h hour then hoursWithRain + 1 else hoursWithRain
    if rainIsFloat hour then c + 1 else c

/-- The method `RainedYesterday`. -/
def RainedYesterday (s : OpenWeatherSprinkler) (weatherData : Option Object) : Bool :=
  let weatherData := match weatherData with
    | none => GetHistoForecast s
    | some w => w
  match asArray (weatherData.lookup "hourly") with
  | none => false
  | some hourly => decide (List.foldl rainedYesterdayStep 0 hourly > 1)

/-- The loop of `DaysToNextRain` from index `idx` on; `7` once the range is exhausted. -/
def daysToNextRainLoop : Nat → List Value → Nat
  | _, [] => 7
  | idx, d :: rest =>
    match asObject (some d) with
    | none => daysToNextRainLoop (idx + 1) rest
    | some day =>
      if rainHas1h day then idx + 1
      else if rainIsFloat day then idx + 1
      else daysToNextRainLoop (idx + 1) rest

/-- The method `DaysToNextRain`. -/
def DaysToNextRain (s : OpenWeatherSprinkler) (weatherData : Option Object) : Nat :=
  let weatherData := match weatherData with
    | none => GetNowForecast s
    | some w => w
  match asArray (weatherData.lookup "daily") with
  | none => 7
  | some daily => daysToNextRainLoop 0 daily

/-- The method `SprinkleNow`.  `moisture` is the early return of the soil-moisture
block (`none` when the block falls through). -/
def SprinkleNow (s : OpenWeatherSprinkler) : Bool :=
  if RainsToday s none then false
  else
    let moisture : Option Bool :=
      match s.soilMoisture with
      | none => none
      | some soilMoisture =>
        if soilMoisture ≤ paramsGet s.params "soil_moisture_lower" then some true
        else if soilMoisture ≥ paramsGet s.params "soil_moisture_upper" then some false
        else none
    match moisture with
    | some r => r
    | none =>
      if RainedYesterday s none then false
      else if RainsTomorrow s none then false
      else true

/-- The method `GetSprinkleTime`.  The quotients are those of `ℚ`: for a pump output
other than `0` the value is the exact one; at a pump output of `0` the Go division
yields an infinity or NaN, which this value does not represent. -/
def GetSprinkleTime (s : OpenWeatherSprinkler) : ℚ :=
  match s.barrelVolume, s.pumpOutput with
  | some barrelVolume, some pumpOutput =>
    ((barrelVolume * paramsGet s.params "barrel_buffer" / (DaysToNextRain s none : ℚ))
      / pumpOutput) * 3600
  | _, _ => 0

/-! ## Sample inputs -/

/-- A forecast snapshot with rain now (a bare number, even `0`) and a dry forecast. -/
def rainingNow : Object :=
  [("current", Value.object [("temp", Value.number 290), ("rain", Value.number 0)]),
   ("daily", Value.array [Value.object [("temp", Value.number 291)]])]

/-- A forecast snapshot without rain now, a dry first forecast day and rain on the second. -/
def rainInTwoDays : Object :=
  [("current", Value.object [("temp", Value.number 290)]),
   ("daily", Value.array [Value.object [("temp", Value.number 291)],
                          Value.object [("rain", Value.number (16 / 5))],
                          Value.object [("rain", Value.object [("1h", Value.number 1)])]])]

/-- A forecast snapshot without rain now and with rain on the first forecast day. -/
def rainTomorrow : Object :=
  [("current", Value.object [("temp", Value.number 290)]),
   ("daily", Value.array [Value.object [("rain", Value.object [("1h", Value.number 2)])],
                          Value.object [("temp", Value.number 291)]])]

/-- A historical snapshot with two hours of rain. -/
def twoRainyHours : Object :=
  [("hourly", Value.array [Value.object [("rain", Value.object [("1h", Value.number 1)])],
                           Value.object [("temp", Value.number 288)],
                           Value.object [("rain", Value.number 2)]])]

/-- A historical snapshot with a single hour of rain. -/
def oneRainyHour : Object :=
  [("hourly", Value.array [Value.object [("temp", Value.number 288)],
                           Value.object [("rain", Value.number 2)]])]

/-- The rain-field rule in the words of the specification, on an entry of a
snapshot: the entry is a mapping whose `rain` field is a mapping containing the
key `1h`, or a bare number. -/
def specRainFieldRule : Value → Bool
  | Value.object entry =>
    match entry.lookup "rain" with
    | some (Value.object rain) => rain.any (fun kv => kv.1 == "1h")
    | some (Value.number _) => true
    | _ => false
  | _ => false

/-! ## Edits of a snapshot -/

/-- The map after the Go assignment `m[key] = v`: the binding of `key` that an index
reads is replaced, or a binding is added when there is none. -/
def assign (key : String) (v : Value) : Object → Object
  | [] => [(key, v)]
  | (k, x) :: rest => if key == k then (key, v) :: rest else (k, x) :: assign key v rest

/-- The place of a weather entry in a snapshot: `current`, `daily[i]` or `hourly[i]`. -/
inductive EntryPath where
  | current : EntryPath
  | daily : Nat → EntryPath
  | hourly : Nat → EntryPath

/-- The value found at a place of the snapshot `w`, if any. -/
def getEntry (w : Object) : EntryPath → Option Value
  | EntryPath.current => w.lookup "current"
  | EntryPath.daily i =>
    match asArray (w.lookup "daily") with
    | some daily => daily[i]?
    | none => none
  | EntryPath.hourly i =>
    match asArray (w.lookup "hourly") with
    | some hourly => hourly[i]?
    | none => none

/-- The snapshot `w` with the value `v` stored at a place (unchanged when the
sequence of the place is missing). -/
def setEntry (w : Object) : EntryPath → Value → Object
  | EntryPath.current, v => assign "current" v w
  | EntryPath.daily i, v =>
    match asArray (w.lookup "daily") with
    | some daily => assign "daily" (Value.array (daily.set i v)) w
    | none => w
  | EntryPath.hourly i, v =>
    match asArray (w.lookup "hourly") with
    | some hourly => assign "hourly" (Value.array (hourly.set i v)) w
    | none => w

/-- The snapshot `w` after the `rain` field of the weather entry at the place `p`
is set to `r`; the other fields of the entry and the rest of the snapshot are kept. -/
def setRain (w : Object) (p : EntryPath) (r : Value) : Object :=
  match asObject (getEntry w p) with
  | some entry => setEntry w p (Value.object (assign "rain" r entry))
  | none => w

/-- The answers of the four extractors on the snapshot `w`. -/
def signals (s : OpenWeatherSprinkler) (w : Object) : Bool × Bool × Bool × Nat :=
  (RainsToday s (some w), RainsTomorrow s (some w), RainedYesterday s (some w),
    DaysToNextRain s (some w))

/-- A value of a `rain` field that the rain-field rule of the specification accepts:
a bare number, or a mapping containing the key `1h`. -/
def specRainValue : Value → Bool
  | Value.number _ => true
  | Value.object rain => rain.any (fun kv => kv.1 == "1h")
  | _ => false

/-! ## Properties of `SprinkleNow` -/

theorem params_lower (a : String) (x y : ℚ) (bv po sm : Option ℚ) (n h : Object) :
    paramsGet (NewOpenWeatherSprinkler a x y bv po sm n h).params "soil_moisture_lower" = 30 := by
  simp [paramsGet, NewOpenWeatherSprinkler, List.lookup]

theorem params_upper (a : String) (x y : ℚ) (bv po sm : Option ℚ) (n h : Object) :
    paramsGet (NewOpenWeatherSprinkler a x y bv po sm n h).params "soil_moisture_upper" = 80 := by
  simp [paramsGet, NewOpenWeatherSprinkler, List.lookup]

theorem params_buffer (a : String) (x y : ℚ) (bv po sm : Option ℚ) (n h : Object) :
    paramsGet (NewOpenWeatherSprinkler a x y bv po sm n h).params "barrel_buffer" = 1 / 2 := by
  simp [paramsGet, NewOpenWeatherSprinkler, List.lookup]
  norm_num

theorem soilMoisture_new (a : String) (x y : ℚ) (bv po sm : Option ℚ) (n h : Object) :
    (NewOpenWeatherSprinkler a x y bv po sm n h).soilMoisture = sm := rfl

/-- C1: on every instance on which `RainsToday` holds, `SprinkleNow` is false,
whatever the soil moisture, the hardware parameters and the other signals are. -/
theorem SprinkleNow_false_of_RainsToday (s : OpenWeatherSprinkler)
    (h : RainsToday s none = true) : SprinkleNow s = false := by
  simp [SprinkleNow, h]

/-- Witness of C1: rain now and a soil moisture of 20, below the lower bound. -/
theorem SprinkleNow_false_of_RainsToday_witness :
    RainsToday (NewOpenWeatherSprinkler "key" 52 13 none none (some 20) rainingNow []) none = true
    ∧ SprinkleNow (NewOpenWeatherSprinkler "key" 52 13 none none (some 20) rainingNow []) = false :=
  ⟨by decide, SprinkleNow_false_of_RainsToday _ (by decide)⟩

/-- C2: a provided soil moisture `≤ 30` on an instance without rain today makes
`SprinkleNow` true, whatever `RainedYesterday` and `RainsTomorrow` answer. -/
theorem SprinkleNow_true_of_dry_soil (apiKey : String) (lat lon : ℚ)
    (barrelVolume pumpOutput : Option ℚ) (soilMoisture : ℚ) (nowData histoData : Object)
    (hdry : soilMoisture ≤ 30)
    (htoday : RainsToday (NewOpenWeatherSprinkler apiKey lat lon barrelVolume pumpOutput
      (some soilMoisture) nowData histoData) none = false) :
    SprinkleNow (NewOpenWeatherSprinkler apiKey lat lon barrelVolume pumpOutput
      (some soilMoisture) nowData histoData) = true := by
  simp [SprinkleNow, htoday, params_lower, soilMoisture_new, hdry]

/-- Witness of C2: soil moisture 20, rain yesterday and rain tomorrow. -/
theorem SprinkleNow_true_of_dry_soil_witness :
    RainedYesterday (NewOpenWeatherSprinkler "key" 52 13 none none (some 20)
      rainTomorrow twoRainyHours) none = true
    ∧ RainsTomorrow (NewOpenWeatherSprinkler "key" 52 13 none none (some 20)
      rainTomorrow twoRainyHours) none = true
    ∧ SprinkleNow (NewOpenWeatherSprinkler "key" 52 13 none none (some 20)
      rainTomorrow twoRainyHours) = true :=
  ⟨by decide, by decide,
    SprinkleNow_true_of_dry_soil "key" 52 13 none none 20 rainTomorrow twoRainyHours
      (by norm_num) (by decide)⟩

/-- C3: a provided soil moisture `≥ 80` on an instance without rain today makes
`SprinkleNow` false, whatever `RainedYesterday` and `RainsTomorrow` answer. -/
theorem SprinkleNow_false_of_wet_soil (apiKey : String) (lat lon : ℚ)
    (barrelVolume pumpOutput : Option ℚ) (soilMoisture : ℚ) (nowData histoData : Object)
    (hwet : soilMoisture ≥ 80)
    (htoday : RainsToday (NewOpenWeatherSprinkler apiKey lat lon barrelVolume pumpOutput
      (some soilMoisture) nowData histoData) none = false) :
    SprinkleNow (NewOpenWeatherSprinkler apiKey lat lon barrelVolume pumpOutput
      (some soilMoisture) nowData histoData) = false := by
  have h30 : ¬ soilMoisture ≤ 30 := by linarith
  simp [SprinkleNow, htoday, params_lower, params_upper, soilMoisture_new, h30, hwet]

/-- Witness of C3: soil moisture 90, no rain yesterday and none in the forecast. -/
theorem SprinkleNow_false_of_wet_soil_witness :
    RainedYesterday (NewOpenWeatherSprinkler "key" 52 13 none none (some 90)
      defaultNowForecast defaultHistoForecast) none = false
    ∧ RainsTomorrow (NewOpenWeatherSprinkler "key" 52 13 none none (some 90)
      defaultNowForecast defaultHistoForecast) none = false
    ∧ SprinkleNow (NewOpenWeatherSprinkler "key" 52 13 none none (some 90)
      defaultNowForecast defaultHistoForecast) = false :=
  ⟨by decide, by decide,
    SprinkleNow_false_of_wet_soil "key" 52 13 none none 90 defaultNowForecast
      defaultHistoForecast (by norm_num) (by decide)⟩

/-- C4: without rain today, and with a soil moisture that is absent or strictly
between 30 and 80, `SprinkleNow` is true exactly when `RainedYesterday` and
`RainsTomorrow` are both false. -/
theorem SprinkleNow_iff_no_rain_signal (apiKey : String) (lat lon : ℚ)
    (barrelVolume pumpOutput soilMoisture : Option ℚ) (nowData histoData : Object)
    (hmid : ∀ m : ℚ, soilMoisture = some m → 30 < m ∧ m < 80)
    (htoday : RainsToday (NewOpenWeatherSprinkler apiKey lat lon barrelVolume pumpOutput
      soilMoisture nowData histoData) none = false) :
    SprinkleNow (NewOpenWeatherSprinkler apiKey lat lon barrelVolume pumpOutput
      soilMoisture nowData histoData) = true
    ↔ (RainedYesterday (NewOpenWeatherSprinkler apiKey lat lon barrelVolume pumpOutput
        soilMoisture nowData histoData) none = false
      ∧ RainsTomorrow (NewOpenWeatherSprinkler apiKey lat lon barrelVolume pumpOutput
        soilMoisture nowData histoData) none = false) := by
  cases soilMoisture with
  | none => simp [SprinkleNow, htoday, soilMoisture_new]
  | some m =>
    obtain ⟨hlo, hhi⟩ := hmid m rfl
    have h30 : ¬ m ≤ 30 := not_le.mpr hlo
    have h80 : ¬ 80 ≤ m := not_le.mpr hhi
    simp [SprinkleNow, htoday, params_lower, params_upper, soilMoisture_new, h30, h80]

/-- Witness of C4: soil moisture 50, a single rainy hour yesterday, rain in two days. -/
theorem SprinkleNow_iff_no_rain_signal_witness :
    SprinkleNow (NewOpenWeatherSprinkler "key" 52 13 none none (some 50)
      rainInTwoDays oneRainyHour) = true
    ↔ (RainedYesterday (NewOpenWeatherSprinkler "key" 52 13 none none (some 50)
        rainInTwoDays oneRainyHour) none = false
      ∧ RainsTomorrow (NewOpenWeatherSprinkler "key" 52 13 none none (some 50)
        rainInTwoDays oneRainyHour) none = false) :=
  SprinkleNow_iff_no_rain_signal "key" 52 13 none none (some 50) rainInTwoDays oneRainyHour
    (by intro m hm; cases hm; norm_num) (by decide)

/-! ## Properties of `GetSprinkleTime` -/

theorem barrelVolume_new (a : String) (x y : ℚ) (bv po sm : Option ℚ) (n h : Object) :
    (NewOpenWeatherSprinkler a x y bv po sm n h).barrelVolume = bv := rfl

theorem pumpOutput_new (a : String) (x y : ℚ) (bv po sm : Option ℚ) (n h : Object) :
    (NewOpenWeatherSprinkler a x y bv po sm n h).pumpOutput = po := rfl

theorem GetSprinkleTime_new (a : String) (x y V P : ℚ) (sm : Option ℚ) (n h : Object) :
    GetSprinkleTime (NewOpenWeatherSprinkler a x y (some V) (some P) sm n h)
      = V * (1 / 2) / (DaysToNextRain (NewOpenWeatherSprinkler a x y (some V) (some P) sm n h)
          none : ℚ) / P * 3600 := by
  simp only [GetSprinkleTime, barrelVolume_new, pumpOutput_new, params_buffer]

theorem GetSprinkleTime_absent (s : OpenWeatherSprinkler)
    (h : s.barrelVolume = none ∨ s.pumpOutput = none) : GetSprinkleTime s = 0 := by
  unfold GetSprinkleTime
  rcases h with h | h
  · rw [h]
  · rw [h]; cases s.barrelVolume <;> rfl

theorem daysToNextRainLoop_pos (l : List Value) : ∀ idx : Nat, 1 ≤ daysToNextRainLoop idx l := by
  induction l with
  | nil => intro idx; simp [daysToNextRainLoop]
  | cons d rest ih =>
    intro idx
    simp only [daysToNextRainLoop]
    split
    · exact ih (idx + 1)
    · split
      · exact Nat.le_add_left 1 idx
      · split
        · exact Nat.le_add_left 1 idx
        · exact ih (idx + 1)

theorem DaysToNextRain_pos (s : OpenWeatherSprinkler) (weatherData : Option Object) :
    1 ≤ DaysToNextRain s weatherData := by
  simp only [DaysToNextRain]
  split
  · norm_num
  · exact daysToNextRainLoop_pos _ 0

/-- C5: with barrel volume `V` and pump output `P ≠ 0` provided, `GetSprinkleTime` is
`((V * 0.5) / d) / P * 3600`, in exact arithmetic, for `d` the value of
`DaysToNextRain` on the forecast snapshot of the instance: it is the number `t`
with `t * P * d = V * 0.5 * 3600`; with `V = 100`, `P = 10` and `d = 2` this is
exactly `9000`. -/
theorem GetSprinkleTime_eq_formula (apiKey : String) (lat lon V P : ℚ)
    (soilMoisture : Option ℚ) (nowData histoData : Object) (hP : P ≠ 0) :
    GetSprinkleTime (NewOpenWeatherSprinkler apiKey lat lon (some V) (some P) soilMoisture
        nowData histoData)
      = ((V * 0.5) / (DaysToNextRain (NewOpenWeatherSprinkler apiKey lat lon (some V) (some P)
          soilMoisture nowData histoData) none : ℚ)) / P * 3600
    ∧ GetSprinkleTime (NewOpenWeatherSprinkler apiKey lat lon (some V) (some P) soilMoisture
          nowData histoData) * P
        * (DaysToNextRain (NewOpenWeatherSprinkler apiKey lat lon (some V) (some P)
          soilMoisture nowData histoData) none : ℚ)
      = V * 0.5 * 3600
    ∧ (V = 100 → P = 10 →
        DaysToNextRain (NewOpenWeatherSprinkler apiKey lat lon (some V) (some P)
          soilMoisture nowData histoData) none = 2 →
        GetSprinkleTime (NewOpenWeatherSprinkler apiKey lat lon (some V) (some P) soilMoisture
          nowData histoData) = 9000) := by
  refine ⟨?_, ?_, ?_⟩
  · rw [GetSprinkleTime_new]; norm_num
  · rw [GetSprinkleTime_new]
    have h1 := DaysToNextRain_pos (NewOpenWeatherSprinkler apiKey lat lon (some V) (some P)
      soilMoisture nowData histoData) none
    generalize DaysToNextRain (NewOpenWeatherSprinkler apiKey lat lon (some V) (some P)
      soilMoisture nowData histoData) none = d at h1 ⊢
    have hd : (d : ℚ) ≠ 0 := by
      have h2 : (1 : ℚ) ≤ (d : ℚ) := by exact_mod_cast h1
      linarith
    field_simp
    ring
  · intro hV hP10 hd
    rw [GetSprinkleTime_new, hd, hV, hP10]; norm_num

/-- Witness of C5: barrel volume 100, pump output 10 and the next rain in two days. -/
theorem GetSprinkleTime_eq_formula_witness :
    (10 : ℚ) ≠ 0
    ∧ DaysToNextRain (NewOpenWeatherSprinkler "key" 52 13 (some 100) (some 10) none
      rainInTwoDays []) none = 2
    ∧ GetSprinkleTime (NewOpenWeatherSprinkler "key" 52 13 (some 100) (some 10) none
      rainInTwoDays []) = 9000 :=
  ⟨by norm_num, by decide,
    (GetSprinkleTime_eq_formula "key" 52 13 100 10 none rainInTwoDays []
      (by norm_num)).2.2 rfl rfl (by decide)⟩

/-- C6: when the barrel volume or the pump output is absent, `GetSprinkleTime` is
the sentinel `0`, whatever the other fields of the instance are. -/
theorem GetSprinkleTime_zero_of_absent (s : OpenWeatherSprinkler)
    (h : s.barrelVolume = none ∨ s.pumpOutput = none) : GetSprinkleTime s = 0 := by
  rcases h with h | h
  · exact GetSprinkleTime_absent s (Or.inl h)
  · exact GetSprinkleTime_absent s (Or.inr h)

/-- Witness of C6: a pump output of 10 without a barrel volume. -/
theorem GetSprinkleTime_zero_of_absent_witness :
    GetSprinkleTime (NewOpenWeatherSprinkler "key" 52 13 none (some 10) (some 20)
      rainInTwoDays twoRainyHours) = 0 :=
  GetSprinkleTime_zero_of_absent _ (Or.inl rfl)

/-- C7, as stated, fails: a barrel volume of `-100` with a pump output of `10` on
the default snapshots gives a negative duration. -/
theorem GetSprinkleTime_negative_counterexample :
    GetSprinkleTime (NewOpenWeatherSprinkler "key" 52 13 (some (-100)) (some 10) none
      defaultNowForecast defaultHistoForecast) = -(18000 / 7)
    ∧ ¬ (0 ≤ GetSprinkleTime (NewOpenWeatherSprinkler "key" 52 13 (some (-100)) (some 10) none
      defaultNowForecast defaultHistoForecast)) := by
  have hd : DaysToNextRain (NewOpenWeatherSprinkler "key" 52 13 (some (-100)) (some 10) none
      defaultNowForecast defaultHistoForecast) none = 7 := by decide
  rw [GetSprinkleTime_new, hd]
  norm_num

/-- C7, amended: when the barrel volume, if provided, is `≥ 0` and the pump output,
if provided, is `> 0`, the value of `GetSprinkleTime` is `≥ 0` on every snapshot. -/
theorem GetSprinkleTime_nonneg (apiKey : String) (lat lon : ℚ)
    (barrelVolume pumpOutput soilMoisture : Option ℚ) (nowData histoData : Object)
    (hV : ∀ V : ℚ, barrelVolume = some V → 0 ≤ V)
    (hP : ∀ P : ℚ, pumpOutput = some P → 0 < P) :
    0 ≤ GetSprinkleTime (NewOpenWeatherSprinkler apiKey lat lon barrelVolume pumpOutput
      soilMoisture nowData histoData) := by
  cases barrelVolume with
  | none => exact le_of_eq (GetSprinkleTime_absent _ (Or.inl rfl)).symm
  | some V =>
    cases pumpOutput with
    | none => exact le_of_eq (GetSprinkleTime_absent _ (Or.inr rfl)).symm
    | some P =>
      rw [GetSprinkleTime_new]
      have h1 : 0 ≤ V := hV V rfl
      have h2 : 0 < P := hP P rfl
      positivity

/-- Witness of C7 (amended): barrel volume 100 and pump output 10. -/
theorem GetSprinkleTime_nonneg_witness :
    0 ≤ GetSprinkleTime (NewOpenWeatherSprinkler "key" 52 13 (some 100) (some 10) none
      rainInTwoDays twoRainyHours) :=
  GetSprinkleTime_nonneg "key" 52 13 (some 100) (some 10) none rainInTwoDays twoRainyHours
    (by intro V hV; cases hV; norm_num) (by intro P hP; cases hP; norm_num)

/-- C8, as stated, fails: with barrel volume 100 and pump output 10, the snapshot
with the next rain in 1 day gives 18000 seconds and the one with the next rain in 2
days gives 9000 seconds, so fewer days do not give a shorter duration. -/
theorem GetSprinkleTime_fewer_days_counterexample :
    DaysToNextRain (NewOpenWeatherSprinkler "key" 52 13 (some 100) (some 10) none
        rainTomorrow []) none
      < DaysToNextRain (NewOpenWeatherSprinkler "key" 52 13 (some 100) (some 10) none
        rainInTwoDays []) none
    ∧ GetSprinkleTime (NewOpenWeatherSprinkler "key" 52 13 (some 100) (some 10) none
        rainTomorrow []) = 18000
    ∧ GetSprinkleTime (NewOpenWeatherSprinkler "key" 52 13 (some 100) (some 10) none
        rainInTwoDays []) = 9000
    ∧ ¬ (GetSprinkleTime (NewOpenWeatherSprinkler "key" 52 13 (some 100) (some 10) none
          rainTomorrow [])
        < GetSprinkleTime (NewOpenWeatherSprinkler "key" 52 13 (some 100) (some 10) none
          rainInTwoDays [])) := by
  have h1 : DaysToNextRain (NewOpenWeatherSprinkler "key" 52 13 (some 100) (some 10) none
      rainTomorrow []) none = 1 := by decide
  have h2 : DaysToNextRain (NewOpenWeatherSprinkler "key" 52 13 (some 100) (some 10) none
      rainInTwoDays []) none = 2 := by decide
  rw [GetSprinkleTime_new, GetSprinkleTime_new, h1, h2]
  norm_num

/-- C8, amended: for a positive barrel volume and a positive pump output, the
snapshot with fewer days to the next rain gives the strictly longer duration. -/
theorem GetSprinkleTime_fewer_days_longer (apiKey₁ apiKey₂ : String)
    (lat₁ lon₁ lat₂ lon₂ V P : ℚ) (soilMoisture₁ soilMoisture₂ : Option ℚ)
    (nowData₁ nowData₂ histoData₁ histoData₂ : Object)
    (hV : 0 < V) (hP : 0 < P)
    (hd : DaysToNextRain (NewOpenWeatherSprinkler apiKey₁ lat₁ lon₁ (some V) (some P)
          soilMoisture₁ nowData₁ histoData₁) none
        < DaysToNextRain (NewOpenWeatherSprinkler apiKey₂ lat₂ lon₂ (some V) (some P)
          soilMoisture₂ nowData₂ histoData₂) none) :
    GetSprinkleTime (NewOpenWeatherSprinkler apiKey₂ lat₂ lon₂ (some V) (some P)
        soilMoisture₂ nowData₂ histoData₂)
      < GetSprinkleTime (NewOpenWeatherSprinkler apiKey₁ lat₁ lon₁ (some V) (some P)
        soilMoisture₁ nowData₁ histoData₁) := by
  rw [GetSprinkleTime_new, GetSprinkleTime_new]
  have h1 := DaysToNextRain_pos (NewOpenWeatherSprinkler apiKey₁ lat₁ lon₁ (some V) (some P)
    soilMoisture₁ nowData₁ histoData₁) none
  generalize DaysToNextRain (NewOpenWeatherSprinkler apiKey₁ lat₁ lon₁ (some V) (some P)
    soilMoisture₁ nowData₁ histoData₁) none = d₁ at hd h1 ⊢
  generalize DaysToNextRain (NewOpenWeatherSprinkler apiKey₂ lat₂ lon₂ (some V) (some P)
    soilMoisture₂ nowData₂ histoData₂) none = d₂ at hd ⊢
  have hd₁ : (0 : ℚ) < d₁ := by exact_mod_cast h1
  have hd₂ : (d₁ : ℚ) < d₂ := by exact_mod_cast hd
  have hnum : 0 < V * (1 / 2) := by positivity
  have hq : V * (1 / 2) / d₂ < V * (1 / 2) / d₁ := div_lt_div_of_pos_left hnum hd₁ hd₂
  have hq2 : V * (1 / 2) / d₂ / P < V * (1 / 2) / d₁ / P := div_lt_div_of_pos_right hq hP
  linarith

/-- Witness of C8 (amended): next rain in 1 day against next rain in 2 days. -/
theorem GetSprinkleTime_fewer_days_longer_witness :
    GetSprinkleTime (NewOpenWeatherSprinkler "key" 52 13 (some 100) (some 10) none
        rainInTwoDays [])
      < GetSprinkleTime (NewOpenWeatherSprinkler "key" 52 13 (some 100) (some 10) none
        rainTomorrow []) :=
  GetSprinkleTime_fewer_days_longer "key" "key" 52 13 52 13 100 10 none none
    rainTomorrow rainInTwoDays [] [] (by norm_num) (by norm_num) (by decide)

/-! ## Properties of the extractors -/

theorem lookup_isSome_eq_any (k : String) (l : List (String × Value)) :
    (l.lookup k).isSome = l.any (fun kv => kv.1 == k) := by
  induction l with
  | nil => rfl
  | cons kv rest ih =>
    obtain ⟨a, b⟩ := kv
    by_cases h : k = a
    · subst h; simp [List.lookup]
    · have h2 : ¬ a = k := fun e => h e.symm
      have h3 : (k == a) = false := by simpa using h
      have h4 : (a == k) = false := by simpa using h2
      simp only [List.lookup, List.any_cons, h3, h4, ih, Bool.false_or]

/-- The two tests of the extractors on an entry amount to the rule of the specification. -/
theorem specRainFieldRule_eq (d : Value) :
    specRainFieldRule d
      = match asObject (some d) with
        | none => false
        | some entry => rainHas1h entry || rainIsFloat entry := by
  cases d with
  | object entry =>
    simp only [specRainFieldRule, asObject, rainHas1h, rainIsFloat]
    cases hrain : entry.lookup "rain" with
    | none => simp [asObject, asFloat64]
    | some v => cases v <;> simp [asObject, asFloat64, lookup_isSome_eq_any]
  | _ => simp [specRainFieldRule, asObject]

theorem rainHas1h_not_rainIsFloat (entry : Object) (h : rainHas1h entry = true) :
    rainIsFloat entry = false := by
  simp only [rainHas1h, rainIsFloat] at *
  cases hrain : entry.lookup "rain" with
  | none => simp [asFloat64]
  | some v => cases v <;> simp_all [asObject, asFloat64]

theorem rainedYesterdayStep_eq (c : Nat) (h : Value) :
    rainedYesterdayStep c h = c + (if specRainFieldRule h = true then 1 else 0) := by
  rw [specRainFieldRule_eq]
  simp only [rainedYesterdayStep]
  cases hobj : asObject (some h) with
  | none => simp
  | some hour =>
    by_cases h1 : rainHas1h hour = true
    · simp [h1, rainHas1h_not_rainIsFloat hour h1]
    · by_cases h2 : rainIsFloat hour = true
      · simp [h1, h2]
      · simp [h1, h2]

theorem foldl_rainedYesterdayStep (l : List Value) :
    ∀ c : Nat, List.foldl rainedYesterdayStep c l = c + l.countP specRainFieldRule := by
  induction l with
  | nil => intro c; simp
  | cons h rest ih =>
    intro c
    rw [List.foldl_cons, ih, rainedYesterdayStep_eq, List.countP_cons]
    omega

/-- C9: `RainedYesterday` is true exactly when `hourly` is a sequence of which at
least two entries satisfy the rain-field rule; it is false for none or one such
entry, whatever the length, and when `hourly` is missing or not a sequence.  The
snapshot is the argument, or the historical snapshot of the instance without one. -/
theorem RainedYesterday_iff_two_rainy_hours (s : OpenWeatherSprinkler)
    (weatherData : Option Object) :
    (RainedYesterday s weatherData = true
      ↔ ∃ hourly : List Value,
          (weatherData.getD s.histoForecast).lookup "hourly" = some (Value.array hourly)
          ∧ 2 ≤ hourly.countP specRainFieldRule)
    ∧ (∀ hourly : List Value,
        (weatherData.getD s.histoForecast).lookup "hourly" = some (Value.array hourly) →
        hourly.countP specRainFieldRule ≤ 1 → RainedYesterday s weatherData = false)
    ∧ (asArray ((weatherData.getD s.histoForecast).lookup "hourly") = none →
        RainedYesterday s weatherData = false) := by
  have hsnap : (match weatherData with
      | none => GetHistoForecast s
      | some w => w) = weatherData.getD s.histoForecast := by
    cases weatherData <;> rfl
  simp only [RainedYesterday, hsnap]
  generalize (weatherData.getD s.histoForecast).lookup "hourly" = v
  refine ⟨?_, ?_, ?_⟩
  · cases v with
    | none => simp [asArray]
    | some x =>
      cases x <;> simp [asArray, foldl_rainedYesterdayStep]
      omega
  · intro hourly hv hc
    subst hv
    simp [asArray, foldl_rainedYesterdayStep]
    omega
  · intro hv
    rw [hv]

/-- Witness of C9: a single rainy hour among two entries is not rain yesterday. -/
theorem RainedYesterday_iff_two_rainy_hours_witness :
    RainedYesterday (NewOpenWeatherSprinkler "key" 52 13 none none none [] []) (some oneRainyHour)
      = false :=
  (RainedYesterday_iff_two_rainy_hours (NewOpenWeatherSprinkler "key" 52 13 none none none [] [])
    (some oneRainyHour)).2.1
    [Value.object [("temp", Value.number 288)], Value.object [("rain", Value.number 2)]]
    rfl (by decide)

theorem daysToNextRainLoop_cons (idx : Nat) (d : Value) (rest : List Value) :
    daysToNextRainLoop idx (d :: rest)
      = if specRainFieldRule d = true then idx + 1 else daysToNextRainLoop (idx + 1) rest := by
  rw [specRainFieldRule_eq]
  simp only [daysToNextRainLoop]
  cases hobj : asObject (some d) with
  | none => simp
  | some day =>
    by_cases h1 : rainHas1h day = true
    · simp [h1]
    · by_cases h2 : rainIsFloat day = true
      · simp [h1, h2]
      · simp [h1, h2]

theorem daysToNextRainLoop_none (l : List Value) :
    ∀ idx : Nat, (∀ d ∈ l, specRainFieldRule d = false) → daysToNextRainLoop idx l = 7 := by
  induction l with
  | nil => intro idx _; rfl
  | cons d rest ih =>
    intro idx h
    rw [daysToNextRainLoop_cons, h d (List.mem_cons_self d rest)]
    simpa using ih (idx + 1) (fun e he => h e (List.mem_cons_of_mem d he))

theorem daysToNextRainLoop_first (l : List Value) :
    ∀ (idx k : Nat) (d : Value), l[k]? = some d → specRainFieldRule d = true →
      (∀ (j : Nat) (e : Value), j < k → l[j]? = some e → specRainFieldRule e = false) →
      daysToNextRainLoop idx l = idx + k + 1 := by
  induction l with
  | nil => intro idx k d hk; simp at hk
  | cons x rest ih =>
    intro idx k d hk hd hmin
    rw [daysToNextRainLoop_cons]
    cases k with
    | zero =>
      simp at hk
      subst hk
      simp [hd]
    | succ k =>
      have hx : specRainFieldRule x = false := hmin 0 x (Nat.succ_pos k) (by simp)
      have hk2 : rest[k]? = some d := by simpa using hk
      have := ih (idx + 1) k d hk2 hd
        (fun j e hj he => hmin (j + 1) e (Nat.succ_lt_succ hj) (by simpa using he))
      simp [hx, this]
      omega

/-- C10: `DaysToNextRain` is `k + 1` for `k` the smallest zero-based index of a
`daily` entry satisfying the rain-field rule, and `7` when no entry qualifies or
`daily` is missing or not a sequence.  The snapshot is the argument, or the
forecast snapshot of the instance without one. -/
theorem DaysToNextRain_first_rainy_index (s : OpenWeatherSprinkler)
    (weatherData : Option Object) :
    (∀ (daily : List Value) (k : Nat) (d : Value),
        (weatherData.getD s.nowForecast).lookup "daily" = some (Value.array daily) →
        daily[k]? = some d → specRainFieldRule d = true →
        (∀ (j : Nat) (e : Value), j < k → daily[j]? = some e → specRainFieldRule e = false) →
        DaysToNextRain s weatherData = k + 1)
    ∧ (∀ daily : List Value,
        (weatherData.getD s.nowForecast).lookup "daily" = some (Value.array daily) →
        (∀ d ∈ daily, specRainFieldRule d = false) → DaysToNextRain s weatherData = 7)
    ∧ (asArray ((weatherData.getD s.nowForecast).lookup "daily") = none →
        DaysToNextRain s weatherData = 7) := by
  have hsnap : (match weatherData with
      | none => GetNowForecast s
      | some w => w) = weatherData.getD s.nowForecast := by
    cases weatherData <;> rfl
  simp only [DaysToNextRain, hsnap]
  refine ⟨?_, ?_, ?_⟩
  · intro daily k d hv hk hd hmin
    rw [hv]
    simp only [asArray]
    rw [daysToNextRainLoop_first daily 0 k d hk hd hmin]
    omega
  · intro daily hv hnone
    rw [hv]
    simp only [asArray]
    exact daysToNextRainLoop_none daily 0 hnone
  · intro hv
    rw [hv]

/-- Witness of C10: the first qualifying entry is at index 1, so the answer is 2. -/
theorem DaysToNextRain_first_rainy_index_witness :
    DaysToNextRain (NewOpenWeatherSprinkler "key" 52 13 none none none rainInTwoDays []) none
      = 1 + 1 :=
  (DaysToNextRain_first_rainy_index
    (NewOpenWeatherSprinkler "key" 52 13 none none none rainInTwoDays []) none).1
    [Value.object [("temp", Value.number 291)],
     Value.object [("rain", Value.number (16 / 5))],
     Value.object [("rain", Value.object [("1h", Value.number 1)])]]
    1 (Value.object [("rain", Value.number (16 / 5))]) rfl rfl (by decide)
    (by
      intro j e hj he
      have hj0 : j = 0 := by omega
      subst hj0
      simp at he
      subst he
      decide)

/-! ## The extractors in terms of the rain-field rule -/

theorem lookup_isSome_iff_mem_keys (k : String) (l : List (String × Value)) :
    (l.lookup k).isSome = true ↔ k ∈ l.map Prod.fst := by
  rw [lookup_isSome_eq_any]
  simp only [List.any_eq_true, List.mem_map, beq_iff_eq]

theorem specRainFieldRule_object (entry : Object) :
    specRainFieldRule (Value.object entry)
      = match entry.lookup "rain" with
        | some r => specRainValue r
        | none => false := by
  simp only [specRainFieldRule]
  cases entry.lookup "rain" with
  | none => rfl
  | some r => cases r <;> rfl

theorem nowSnapshot_eq (s : OpenWeatherSprinkler) (weatherData : Option Object) :
    (match weatherData with
      | none => GetNowForecast s
      | some w => w) = weatherData.getD s.nowForecast := by
  cases weatherData <;> rfl

theorem RainsToday_eq_rule (s : OpenWeatherSprinkler) (weatherData : Option Object) :
    RainsToday s weatherData
      = match (weatherData.getD s.nowForecast).lookup "current" with
        | some v => specRainFieldRule v
        | none => false := by
  simp only [RainsToday, nowSnapshot_eq]
  cases (weatherData.getD s.nowForecast).lookup "current" with
  | none => rfl
  | some v =>
    simp only [specRainFieldRule_eq v]
    cases asObject (some v) with
    | none => rfl
    | some current =>
      by_cases h1 : rainHas1h current = true <;> by_cases h2 : rainIsFloat current = true <;>
        simp [h1, h2]

theorem RainsTomorrow_eq_rule (s : OpenWeatherSprinkler) (weatherData : Option Object) :
    RainsTomorrow s weatherData
      = match asArray ((weatherData.getD s.nowForecast).lookup "daily") with
        | some (d0 :: _) => specRainFieldRule d0
        | _ => false := by
  simp only [RainsTomorrow, nowSnapshot_eq]
  cases asArray ((weatherData.getD s.nowForecast).lookup "daily") with
  | none => rfl
  | some daily =>
    cases daily with
    | nil => rfl
    | cons d0 rest =>
      simp only [specRainFieldRule_eq d0]
      cases asObject (some d0) with
      | none => rfl
      | some tomorrow =>
        by_cases h1 : rainHas1h tomorrow = true <;> by_cases h2 : rainIsFloat tomorrow = true <;>
          simp [h1, h2]

/-- C11: `RainsToday` is true exactly when `current` is a mapping whose `rain` field
is a mapping containing the key `1h` or a bare number; it is false when `current`
is missing or not a mapping, and when the `rain` field is missing or has another
shape (null, a boolean, a string, a sequence, a mapping without `1h`). -/
theorem RainsToday_iff_current_rain (s : OpenWeatherSprinkler) (weatherData : Option Object) :
    (RainsToday s weatherData = true
      ↔ ∃ current : Object,
          (weatherData.getD s.nowForecast).lookup "current" = some (Value.object current)
          ∧ ((∃ rain : Object, current.lookup "rain" = some (Value.object rain)
                ∧ "1h" ∈ rain.map Prod.fst)
              ∨ ∃ x : ℚ, current.lookup "rain" = some (Value.number x)))
    ∧ (asObject ((weatherData.getD s.nowForecast).lookup "current") = none →
        RainsToday s weatherData = false)
    ∧ (∀ current : Object,
        (weatherData.getD s.nowForecast).lookup "current" = some (Value.object current) →
        (current.lookup "rain" = none
          ∨ current.lookup "rain" = some Value.null
          ∨ (∃ b : Bool, current.lookup "rain" = some (Value.bool b))
          ∨ (∃ t : String, current.lookup "rain" = some (Value.string t))
          ∨ (∃ l : List Value, current.lookup "rain" = some (Value.array l))
          ∨ (∃ rain : Object, current.lookup "rain" = some (Value.object rain)
              ∧ "1h" ∉ rain.map Prod.fst)) →
        RainsToday s weatherData = false) := by
  rw [RainsToday_eq_rule]
  generalize (weatherData.getD s.nowForecast).lookup "current" = c
  refine ⟨?_, ?_, ?_⟩
  · cases c with
    | none => simp
    | some v =>
      cases v with
      | object current =>
        simp only [specRainFieldRule_object, Option.some.injEq, Value.object.injEq,
          exists_eq_left']
        cases hr : current.lookup "rain" with
        | none => simp
        | some r =>
          cases r <;>
            simp [specRainValue, ← lookup_isSome_iff_mem_keys, lookup_isSome_eq_any]
      | _ => simp [specRainFieldRule]
  · intro hc
    cases c with
    | none => rfl
    | some v => cases v <;> simp_all [asObject, specRainFieldRule]
  · intro current hc hshape
    subst hc
    simp only [specRainFieldRule_object]
    rcases hshape with h | h | ⟨b, h⟩ | ⟨t, h⟩ | ⟨l, h⟩ | ⟨rain, h, hk⟩
    · rw [h]
    · rw [h]; rfl
    · rw [h]; rfl
    · rw [h]; rfl
    · rw [h]; rfl
    · rw [h]
      simp only [specRainValue]
      rw [← lookup_isSome_iff_mem_keys, lookup_isSome_eq_any] at hk
      exact Bool.eq_false_iff.mpr hk

/-- Witness of C11: a `rain` field that is a mapping without the key `1h`. -/
theorem RainsToday_iff_current_rain_witness :
    RainsToday (NewOpenWeatherSprinkler "key" 52 13 none none none [] [])
      (some [("current", Value.object [("rain", Value.object [("3h", Value.number 1)])])])
      = false :=
  (RainsToday_iff_current_rain (NewOpenWeatherSprinkler "key" 52 13 none none none [] [])
    (some [("current", Value.object [("rain", Value.object [("3h", Value.number 1)])])])).2.2
    [("rain", Value.object [("3h", Value.number 1)])] rfl
    (Or.inr (Or.inr (Or.inr (Or.inr (Or.inr
      ⟨[("3h", Value.number 1)], rfl, by decide⟩)))))

/-- C12: `RainsTomorrow` is true exactly when `daily` is a non-empty sequence whose
entry at index 0 satisfies the rain-field rule; the entries from index 1 on do not
change the answer, and it is false when `daily` is missing, not a sequence or
empty, or when its entry at index 0 is not a mapping. -/
theorem RainsTomorrow_iff_first_daily (s : OpenWeatherSprinkler)
    (weatherData : Option Object) :
    (RainsTomorrow s weatherData = true
      ↔ ∃ (d0 : Value) (rest : List Value),
          (weatherData.getD s.nowForecast).lookup "daily" = some (Value.array (d0 :: rest))
          ∧ specRainFieldRule d0 = true)
    ∧ (∀ (w₁ w₂ : Object) (d0 : Value) (rest₁ rest₂ : List Value),
        w₁.lookup "daily" = some (Value.array (d0 :: rest₁)) →
        w₂.lookup "daily" = some (Value.array (d0 :: rest₂)) →
        RainsTomorrow s (some w₁) = RainsTomorrow s (some w₂))
    ∧ (asArray ((weatherData.getD s.nowForecast).lookup "daily") = none →
        RainsTomorrow s weatherData = false)
    ∧ ((weatherData.getD s.nowForecast).lookup "daily" = some (Value.array []) →
        RainsTomorrow s weatherData = false)
    ∧ (∀ (d0 : Value) (rest : List Value),
        (weatherData.getD s.nowForecast).lookup "daily" = some (Value.array (d0 :: rest)) →
        asObject (some d0) = none → RainsTomorrow s weatherData = false) := by
  refine ⟨?_, ?_, ?_, ?_, ?_⟩
  · rw [RainsTomorrow_eq_rule]
    generalize (weatherData.getD s.nowForecast).lookup "daily" = c
    cases c with
    | none => simp [asArray]
    | some v =>
      cases v with
      | array daily =>
        cases daily with
        | nil => simp [asArray]
        | cons d0 rest => simp [asArray]
      | _ => simp [asArray]
  · intro w₁ w₂ d0 rest₁ rest₂ h₁ h₂
    rw [RainsTomorrow_eq_rule, RainsTomorrow_eq_rule]
    simp only [Option.getD_some, h₁, h₂, asArray]
  · intro hc
    rw [RainsTomorrow_eq_rule, hc]
  · intro hc
    rw [RainsTomorrow_eq_rule, hc]
    rfl
  · intro d0 rest hc hd
    rw [RainsTomorrow_eq_rule, hc]
    simp only [asArray, specRainFieldRule_eq d0, hd]

/-- Witness of C12: rain on the second forecast day only is not rain tomorrow. -/
theorem RainsTomorrow_iff_first_daily_witness :
    RainsTomorrow (NewOpenWeatherSprinkler "key" 52 13 none none none [] [])
        (some rainInTwoDays)
      = RainsTomorrow (NewOpenWeatherSprinkler "key" 52 13 none none none [] [])
        (some [("daily", Value.array [Value.object [("temp", Value.number 291)]])]) :=
  (RainsTomorrow_iff_first_daily (NewOpenWeatherSprinkler "key" 52 13 none none none [] [])
    none).2.1 rainInTwoDays [("daily", Value.array [Value.object [("temp", Value.number 291)]])]
    (Value.object [("temp", Value.number 291)])
    [Value.object [("rain", Value.number (16 / 5))],
     Value.object [("rain", Value.object [("1h", Value.number 1)])]]
    [] rfl rfl

/-! ## Edits of a `rain` field -/

theorem lookup_assign_self (key : String) (v : Value) (m : Object) :
    (assign key v m).lookup key = some v := by
  induction m with
  | nil => simp [assign, List.lookup]
  | cons kv rest ih =>
    obtain ⟨k, x⟩ := kv
    by_cases h : key = k
    · simp [assign, List.lookup, h]
    · have h2 : (key == k) = false := by simpa using h
      simp only [assign, h2, List.lookup, ih]

theorem lookup_assign_ne (key k : String) (v : Value) (m : Object) (hk : k ≠ key) :
    (assign key v m).lookup k = m.lookup k := by
  have hk2 : (k == key) = false := by simpa using hk
  induction m with
  | nil => simp [assign, List.lookup, hk2]
  | cons kv rest ih =>
    obtain ⟨a, x⟩ := kv
    by_cases h : key = a
    · subst h
      simp [assign, List.lookup, hk2]
    · have h2 : (key == a) = false := by simpa using h
      simp only [assign, h2, List.lookup, ih]

theorem countP_congr_map (l : List Value) :
    ∀ l₂ : List Value, l.map specRainFieldRule = l₂.map specRainFieldRule →
      l.countP specRainFieldRule = l₂.countP specRainFieldRule := by
  induction l with
  | nil => intro l₂ h; cases l₂ with
    | nil => rfl
    | cons b t => simp at h
  | cons a rest ih =>
    intro l₂ h
    cases l₂ with
    | nil => simp at h
    | cons b t =>
      simp only [List.map_cons, List.cons.injEq] at h
      simp only [List.countP_cons, h.1, ih t h.2]

theorem daysToNextRainLoop_congr_map (l : List Value) :
    ∀ (l₂ : List Value) (idx : Nat), l.map specRainFieldRule = l₂.map specRainFieldRule →
      daysToNextRainLoop idx l = daysToNextRainLoop idx l₂ := by
  induction l with
  | nil => intro l₂ idx h; cases l₂ with
    | nil => rfl
    | cons b t => simp at h
  | cons a rest ih =>
    intro l₂ idx h
    cases l₂ with
    | nil => simp at h
    | cons b t =>
      simp only [List.map_cons, List.cons.injEq] at h
      rw [daysToNextRainLoop_cons, daysToNextRainLoop_cons, h.1, ih t (idx + 1) h.2]

theorem map_rule_set (l : List Value) :
    ∀ (i : Nat) (v v₂ : Value), l[i]? = some v → specRainFieldRule v₂ = specRainFieldRule v →
      (l.set i v₂).map specRainFieldRule = l.map specRainFieldRule := by
  induction l with
  | nil => intro i v v₂ h; simp at h
  | cons a rest ih =>
    intro i v v₂ h hv
    cases i with
    | zero =>
      simp at h
      subst h
      simp [hv]
    | succ i =>
      have h2 : rest[i]? = some v := by simpa using h
      simp [ih i v v₂ h2 hv]

/-- The four extractors read a snapshot only through the rain-field rule on
`current`, on the `daily` entries and on the `hourly` entries. -/
theorem signals_congr (s : OpenWeatherSprinkler) (w w₂ : Object)
    (hc : (w.lookup "current").map specRainFieldRule
        = (w₂.lookup "current").map specRainFieldRule)
    (hd : (asArray (w.lookup "daily")).map (List.map specRainFieldRule)
        = (asArray (w₂.lookup "daily")).map (List.map specRainFieldRule))
    (hh : (asArray (w.lookup "hourly")).map (List.map specRainFieldRule)
        = (asArray (w₂.lookup "hourly")).map (List.map specRainFieldRule)) :
    signals s w = signals s w₂ := by
  have h1 : RainsToday s (some w) = RainsToday s (some w₂) := by
    rw [RainsToday_eq_rule, RainsToday_eq_rule]
    simp only [Option.getD_some]
    cases h : w.lookup "current" <;> cases h₂ : w₂.lookup "current" <;>
      simp_all
  have h2 : RainsTomorrow s (some w) = RainsTomorrow s (some w₂) := by
    rw [RainsTomorrow_eq_rule, RainsTomorrow_eq_rule]
    simp only [Option.getD_some]
    cases h : asArray (w.lookup "daily") with
    | none => cases h₂ : asArray (w₂.lookup "daily") <;> simp_all
    | some l =>
      cases h₂ : asArray (w₂.lookup "daily") with
      | none => simp_all
      | some l₂ =>
        rw [h, h₂] at hd
        simp only [Option.map_some', Option.some.injEq] at hd
        cases l <;> cases l₂ <;> simp_all
  have h3 : RainedYesterday s (some w) = RainedYesterday s (some w₂) := by
    simp only [RainedYesterday]
    cases h : asArray (w.lookup "hourly") with
    | none => cases h₂ : asArray (w₂.lookup "hourly") <;> simp_all
    | some l =>
      cases h₂ : asArray (w₂.lookup "hourly") with
      | none => simp_all
      | some l₂ =>
        rw [h, h₂] at hh
        simp only [Option.map_some', Option.some.injEq] at hh
        simp only [foldl_rainedYesterdayStep, countP_congr_map l l₂ hh]
  have h4 : DaysToNextRain s (some w) = DaysToNextRain s (some w₂) := by
    simp only [DaysToNextRain]
    cases h : asArray (w.lookup "daily") with
    | none => cases h₂ : asArray (w₂.lookup "daily") <;> simp_all
    | some l =>
      cases h₂ : asArray (w₂.lookup "daily") with
      | none => simp_all
      | some l₂ =>
        rw [h, h₂] at hd
        simp only [Option.map_some', Option.some.injEq] at hd
        exact daysToNextRainLoop_congr_map l l₂ 0 hd
  simp only [signals, h1, h2, h3, h4]

theorem asArray_eq_some (v : Option Value) (l : List Value) (h : asArray v = some l) :
    v = some (Value.array l) := by
  cases v with
  | none => simp [asArray] at h
  | some x => cases x <;> simp_all [asArray]

/-- Setting the `rain` field of an entry to a value that the rule accepts exactly
when it accepts the present one leaves the four extractors unchanged. -/
theorem signals_setRain (s : OpenWeatherSprinkler) (w : Object) (p : EntryPath)
    (entry : Object) (r r₂ : Value)
    (he : getEntry w p = some (Value.object entry))
    (hr : entry.lookup "rain" = some r)
    (hq : specRainValue r₂ = specRainValue r) :
    signals s (setRain w p r₂) = signals s w := by
  have hrule : specRainFieldRule (Value.object (assign "rain" r₂ entry))
      = specRainFieldRule (Value.object entry) := by
    rw [specRainFieldRule_object, specRainFieldRule_object, lookup_assign_self, hr]
    exact hq
  simp only [setRain, he, asObject]
  cases p with
  | current =>
    simp only [getEntry] at he
    simp only [setEntry]
    apply signals_congr
    · rw [lookup_assign_self, he]; simp [hrule]
    · rw [lookup_assign_ne _ _ _ _ (by decide)]
    · rw [lookup_assign_ne _ _ _ _ (by decide)]
  | daily i =>
    simp only [getEntry] at he
    simp only [setEntry]
    cases hl : asArray (w.lookup "daily") with
    | none => rfl
    | some l =>
      rw [hl] at he
      have hw := asArray_eq_some _ _ hl
      apply signals_congr
      · rw [lookup_assign_ne _ _ _ _ (by decide)]
      · rw [lookup_assign_self, hw]
        simp only [asArray, Option.map_some']
        rw [map_rule_set l i _ _ he hrule]
      · rw [lookup_assign_ne _ _ _ _ (by decide)]
  | hourly i =>
    simp only [getEntry] at he
    simp only [setEntry]
    cases hl : asArray (w.lookup "hourly") with
    | none => rfl
    | some l =>
      rw [hl] at he
      have hw := asArray_eq_some _ _ hl
      apply signals_congr
      · rw [lookup_assign_ne _ _ _ _ (by decide)]
      · rw [lookup_assign_ne _ _ _ _ (by decide)]
      · rw [lookup_assign_self, hw]
        simp only [asArray, Option.map_some']
        rw [map_rule_set l i _ _ he hrule]

theorem specRainValue_object (rain : Object) :
    specRainValue (Value.object rain) = (rain.lookup "1h").isSome := by
  rw [lookup_isSome_eq_any]; rfl

/-- C13: in any weather entry of a snapshot (`current`, a `daily` entry or an
`hourly` entry), replacing a `rain` field that is a bare number by a mapping
containing the key `1h`, or such a mapping by a bare number, leaves the answers of
`RainsToday`, `RainsTomorrow`, `RainedYesterday` and `DaysToNextRain` unchanged. -/
theorem signals_rain_number_mapping_swap (s : OpenWeatherSprinkler) (w : Object)
    (p : EntryPath) (entry : Object) (x : ℚ) (rain : Object)
    (he : getEntry w p = some (Value.object entry))
    (h1h : "1h" ∈ rain.map Prod.fst) :
    (entry.lookup "rain" = some (Value.number x) →
        signals s (setRain w p (Value.object rain)) = signals s w)
    ∧ (entry.lookup "rain" = some (Value.object rain) →
        signals s (setRain w p (Value.number x)) = signals s w) := by
  have hq : specRainValue (Value.object rain) = specRainValue (Value.number x) := by
    rw [specRainValue_object, (lookup_isSome_iff_mem_keys "1h" rain).mpr h1h]; rfl
  exact ⟨fun hr => signals_setRain s w p entry _ _ he hr hq,
    fun hr => signals_setRain s w p entry _ _ he hr hq.symm⟩

/-- Witness of C13: the bare number under `current.rain` becomes a mapping with `1h`. -/
theorem signals_rain_number_mapping_swap_witness :
    signals (NewOpenWeatherSprinkler "key" 52 13 none none none [] [])
        (setRain rainingNow EntryPath.current (Value.object [("1h", Value.number 1)]))
      = signals (NewOpenWeatherSprinkler "key" 52 13 none none none [] []) rainingNow :=
  (signals_rain_number_mapping_swap (NewOpenWeatherSprinkler "key" 52 13 none none none [] [])
    rainingNow EntryPath.current [("temp", Value.number 290), ("rain", Value.number 0)] 0
    [("1h", Value.number 1)] rfl (by decide)).1 rfl

/-! ## `GetSprinkleTime` and `DaysToNextRain` -/

/-- C14: two instances with the same barrel volume and pump output whose forecast
snapshots agree on `daily` get the same value from `GetSprinkleTime`, whatever
their `current` entries, historical snapshots and soil moistures are. -/
theorem GetSprinkleTime_no_rain_gating (apiKey₁ apiKey₂ : String)
    (lat₁ lon₁ lat₂ lon₂ : ℚ) (barrelVolume pumpOutput soilMoisture₁ soilMoisture₂ : Option ℚ)
    (nowData₁ nowData₂ histoData₁ histoData₂ : Object)
    (hdaily : nowData₁.lookup "daily" = nowData₂.lookup "daily") :
    GetSprinkleTime (NewOpenWeatherSprinkler apiKey₁ lat₁ lon₁ barrelVolume pumpOutput
        soilMoisture₁ nowData₁ histoData₁)
      = GetSprinkleTime (NewOpenWeatherSprinkler apiKey₂ lat₂ lon₂ barrelVolume pumpOutput
        soilMoisture₂ nowData₂ histoData₂) := by
  have hd : DaysToNextRain (NewOpenWeatherSprinkler apiKey₁ lat₁ lon₁ barrelVolume pumpOutput
        soilMoisture₁ nowData₁ histoData₁) none
      = DaysToNextRain (NewOpenWeatherSprinkler apiKey₂ lat₂ lon₂ barrelVolume pumpOutput
        soilMoisture₂ nowData₂ histoData₂) none := by
    simp only [DaysToNextRain, GetNowForecast, NewOpenWeatherSprinkler, hdaily]
  cases barrelVolume with
  | none => rw [GetSprinkleTime_absent _ (Or.inl rfl), GetSprinkleTime_absent _ (Or.inl rfl)]
  | some V =>
    cases pumpOutput with
    | none => rw [GetSprinkleTime_absent _ (Or.inr rfl), GetSprinkleTime_absent _ (Or.inr rfl)]
    | some P => rw [GetSprinkleTime_new, GetSprinkleTime_new, hd]

/-- Witness of C14: rain now against no rain now, with the same `daily`: `SprinkleNow`
differs and `GetSprinkleTime` does not. -/
theorem GetSprinkleTime_no_rain_gating_witness :
    SprinkleNow (NewOpenWeatherSprinkler "key" 52 13 (some 100) (some 10) none
        rainingNow twoRainyHours) = false
    ∧ SprinkleNow (NewOpenWeatherSprinkler "key" 52 13 (some 100) (some 10) none
        [("current", Value.object []),
         ("daily", Value.array [Value.object [("temp", Value.number 291)]])] []) = true
    ∧ GetSprinkleTime (NewOpenWeatherSprinkler "key" 52 13 (some 100) (some 10) none
        rainingNow twoRainyHours)
      = GetSprinkleTime (NewOpenWeatherSprinkler "key" 52 13 (some 100) (some 10) none
        [("current", Value.object []),
         ("daily", Value.array [Value.object [("temp", Value.number 291)]])] []) :=
  ⟨by decide, by decide,
    GetSprinkleTime_no_rain_gating "key" "key" 52 13 52 13 (some 100) (some 10) none none
      rainingNow
      [("current", Value.object []),
       ("daily", Value.array [Value.object [("temp", Value.number 291)]])]
      twoRainyHours [] rfl⟩

theorem daysToNextRainLoop_range (l : List Value) :
    ∀ idx : Nat, daysToNextRainLoop idx l = 7
      ∨ (idx + 1 ≤ daysToNextRainLoop idx l ∧ daysToNextRainLoop idx l ≤ idx + l.length) := by
  induction l with
  | nil => intro idx; exact Or.inl rfl
  | cons d rest ih =>
    intro idx
    rw [daysToNextRainLoop_cons]
    by_cases hd : specRainFieldRule d = true
    · rw [if_pos hd, List.length_cons]
      exact Or.inr ⟨le_refl _, by omega⟩
    · rw [if_neg hd, List.length_cons]
      rcases ih (idx + 1) with h | ⟨h1, h2⟩
      · exact Or.inl h
      · exact Or.inr ⟨by omega, by omega⟩

/-- C15: on every snapshot `DaysToNextRain` is at least 1: it is the fallback 7 or a
value between 1 and the length of `daily`; so the divisor of `GetSprinkleTime` is
never zero. -/
theorem DaysToNextRain_ge_one (s : OpenWeatherSprinkler) (weatherData : Option Object) :
    1 ≤ DaysToNextRain s weatherData
    ∧ (DaysToNextRain s weatherData = 7
      ∨ ∃ daily : List Value,
          (weatherData.getD s.nowForecast).lookup "daily" = some (Value.array daily)
          ∧ 1 ≤ DaysToNextRain s weatherData
          ∧ DaysToNextRain s weatherData ≤ daily.length)
    ∧ (DaysToNextRain s none : ℚ) ≠ 0 := by
  refine ⟨DaysToNextRain_pos s weatherData, ?_, ?_⟩
  · cases hl : asArray ((weatherData.getD s.nowForecast).lookup "daily") with
    | none =>
      left
      simp only [DaysToNextRain, nowSnapshot_eq, hl]
    | some daily =>
      have hD : DaysToNextRain s weatherData = daysToNextRainLoop 0 daily := by
        simp only [DaysToNextRain, nowSnapshot_eq, hl]
      rw [hD]
      rcases daysToNextRainLoop_range daily 0 with h | ⟨h1, h2⟩
      · exact Or.inl h
      · exact Or.inr ⟨daily, asArray_eq_some _ _ hl, by omega, by omega⟩
  · have h := DaysToNextRain_pos s none
    have h2 : (1 : ℚ) ≤ (DaysToNextRain s none : ℚ) := by exact_mod_cast h
    linarith

/-- C16: on every snapshot `RainsTomorrow` is true exactly when `DaysToNextRain`
is 1. -/
theorem RainsTomorrow_iff_DaysToNextRain_one (s : OpenWeatherSprinkler)
    (weatherData : Option Object) :
    RainsTomorrow s weatherData = true ↔ DaysToNextRain s weatherData = 1 := by
  rw [RainsTomorrow_eq_rule]
  simp only [DaysToNextRain, nowSnapshot_eq]
  cases asArray ((weatherData.getD s.nowForecast).lookup "daily") with
  | none => simp
  | some daily =>
    cases daily with
    | nil => simp [daysToNextRainLoop]
    | cons d0 rest =>
      simp only [daysToNextRainLoop_cons]
      by_cases hd : specRainFieldRule d0 = true
      · simp [hd]
      · rw [if_neg hd]
        have hne : daysToNextRainLoop (0 + 1) rest ≠ 1 := by
          rcases daysToNextRainLoop_range rest (0 + 1) with h | ⟨h1, _⟩
          · rw [h]; decide
          · omega
        simp [hd, hne]

/-- C17: on the default snapshots `RainsToday`, `RainsTomorrow` and `RainedYesterday`
are false and `DaysToNextRain` is 7; `SprinkleNow` is true unless a soil moisture is
provided and is `≥ 80`; with barrel volume `V` and pump output `P ≠ 0`,
`GetSprinkleTime` is `((V * 0.5) / 7) / P * 3600`, in exact arithmetic: the number
`t` with `t * P * 7 = V * 0.5 * 3600`. -/
theorem default_snapshots_behaviour (apiKey : String) (lat lon : ℚ)
    (barrelVolume pumpOutput soilMoisture : Option ℚ) :
    RainsToday (NewOpenWeatherSprinkler apiKey lat lon barrelVolume pumpOutput soilMoisture
        defaultNowForecast defaultHistoForecast) none = false
    ∧ RainsTomorrow (NewOpenWeatherSprinkler apiKey lat lon barrelVolume pumpOutput soilMoisture
        defaultNowForecast defaultHistoForecast) none = false
    ∧ RainedYesterday (NewOpenWeatherSprinkler apiKey lat lon barrelVolume pumpOutput
        soilMoisture defaultNowForecast defaultHistoForecast) none = false
    ∧ DaysToNextRain (NewOpenWeatherSprinkler apiKey lat lon barrelVolume pumpOutput
        soilMoisture defaultNowForecast defaultHistoForecast) none = 7
    ∧ (SprinkleNow (NewOpenWeatherSprinkler apiKey lat lon barrelVolume pumpOutput soilMoisture
        defaultNowForecast defaultHistoForecast) = true
      ↔ ¬ ∃ m : ℚ, soilMoisture = some m ∧ 80 ≤ m)
    ∧ ∀ V P : ℚ, P ≠ 0 →
        GetSprinkleTime (NewOpenWeatherSprinkler apiKey lat lon (some V) (some P) soilMoisture
          defaultNowForecast defaultHistoForecast) = ((V * 0.5) / 7) / P * 3600
        ∧ GetSprinkleTime (NewOpenWeatherSprinkler apiKey lat lon (some V) (some P) soilMoisture
          defaultNowForecast defaultHistoForecast) * P * 7 = V * 0.5 * 3600 := by
  have h1 : RainsToday (NewOpenWeatherSprinkler apiKey lat lon barrelVolume pumpOutput
      soilMoisture defaultNowForecast defaultHistoForecast) none = false := rfl
  have h2 : RainsTomorrow (NewOpenWeatherSprinkler apiKey lat lon barrelVolume pumpOutput
      soilMoisture defaultNowForecast defaultHistoForecast) none = false := rfl
  have h3 : RainedYesterday (NewOpenWeatherSprinkler apiKey lat lon barrelVolume pumpOutput
      soilMoisture defaultNowForecast defaultHistoForecast) none = false := rfl
  have h4 : DaysToNextRain (NewOpenWeatherSprinkler apiKey lat lon barrelVolume pumpOutput
      soilMoisture defaultNowForecast defaultHistoForecast) none = 7 := rfl
  refine ⟨h1, h2, h3, h4, ?_, ?_⟩
  · cases soilMoisture with
    | none => simp [SprinkleNow, h1, h2, h3, soilMoisture_new]
    | some m =>
      by_cases h30 : m ≤ 30
      · have h80 : ¬ 80 ≤ m := by linarith
        simp [SprinkleNow, h1, h2, h3, soilMoisture_new, params_lower, params_upper, h30, h80]
      · by_cases h80 : 80 ≤ m
        · simp [SprinkleNow, h1, h2, h3, soilMoisture_new, params_lower, params_upper, h30, h80]
        · simp [SprinkleNow, h1, h2, h3, soilMoisture_new, params_lower, params_upper, h30, h80]
  · intro V P hP
    have h5 : DaysToNextRain (NewOpenWeatherSprinkler apiKey lat lon (some V) (some P)
        soilMoisture defaultNowForecast defaultHistoForecast) none = 7 := rfl
    rw [GetSprinkleTime_new, h5]
    refine ⟨by norm_num, ?_⟩
    field_simp
    ring

/-- Witness of C17: barrel volume 100 and pump output 10 on the default snapshots. -/
theorem default_snapshots_behaviour_witness :
    (10 : ℚ) ≠ 0
    ∧ GetSprinkleTime (NewOpenWeatherSprinkler "key" 52 13 (some 100) (some 10) none
        defaultNowForecast defaultHistoForecast) = ((100 * 0.5) / 7) / 10 * 3600 :=
  ⟨by norm_num,
    ((default_snapshots_behaviour "key" 52 13 (some 100) (some 10) none).2.2.2.2.2 100 10
      (by norm_num)).1⟩

/-- C18: the amount of rain is not read.  In any weather entry of a snapshot,
changing a bare-number `rain` field to another number, or the value under `1h` of a
`rain` mapping to another value, leaves the answers of `RainsToday`,
`RainsTomorrow`, `RainedYesterday` and `DaysToNextRain` unchanged; and a
`current.rain` equal to `0` makes `RainsToday` true. -/
theorem signals_rain_amount_irrelevant (s : OpenWeatherSprinkler) (w : Object)
    (p : EntryPath) (entry : Object)
    (he : getEntry w p = some (Value.object entry)) :
    (∀ x y : ℚ, entry.lookup "rain" = some (Value.number x) →
        signals s (setRain w p (Value.number y)) = signals s w)
    ∧ (∀ (rain : Object) (v v₂ : Value), entry.lookup "rain" = some (Value.object rain) →
        rain.lookup "1h" = some v →
        signals s (setRain w p (Value.object (assign "1h" v₂ rain))) = signals s w)
    ∧ (p = EntryPath.current → entry.lookup "rain" = some (Value.number 0) →
        RainsToday s (some w) = true) := by
  refine ⟨?_, ?_, ?_⟩
  · intro x y hr
    exact signals_setRain s w p entry _ _ he hr rfl
  · intro rain v v₂ hr hv
    refine signals_setRain s w p entry _ _ he hr ?_
    rw [specRainValue_object, specRainValue_object, lookup_assign_self, hv]
    rfl
  · intro hp hr
    subst hp
    simp only [getEntry] at he
    rw [RainsToday_eq_rule]
    simp only [Option.getD_some, he, specRainFieldRule_object, hr]
    rfl

/-- Witness of C18: the `1h` amount of the third forecast day becomes null. -/
theorem signals_rain_amount_irrelevant_witness :
    signals (NewOpenWeatherSprinkler "key" 52 13 none none none [] [])
        (setRain rainInTwoDays (EntryPath.daily 2)
          (Value.object (assign "1h" Value.null [("1h", Value.number 1)])))
      = signals (NewOpenWeatherSprinkler "key" 52 13 none none none [] []) rainInTwoDays :=
  (signals_rain_amount_irrelevant (NewOpenWeatherSprinkler "key" 52 13 none none none [] [])
    rainInTwoDays (EntryPath.daily 2) [("rain", Value.object [("1h", Value.number 1)])]
    rfl).2.1 [("1h", Value.number 1)] (Value.number 1) Value.null rfl rfl

end CannySprinkler
